import Mathlib

/-!
Shallow embedding of the kqueue backend of the `polling` crate
(`src/kqueue.rs`) and of the Windows completion-port binding layer
(`src/iocp/bindings.rs`), together with proofs of the specification's
claims about them.

Conventions of the embedding:
* machine integers are `Int` (for `RawFd = i32`, errno values and the
  `data` field of a kevent, `isize`) or `Nat` (for `usize` bit patterns
  such as keys and `udata`);
* the native `kevent(2)` syscall is an oracle parameter of type
  `KernelCall`: a function from the submitted change list to either an
  errno or the returned event list;
* fallible Rust functions returning `io::Result<T>` become
  `Except Int T`, the `Int` being the raw OS error code.
-/

namespace Polling

/-- kqueue event flags (rustix `kqueue::EventFlags`), embedded as a record
of the individual flag bits actually used by `src/kqueue.rs`. -/
structure EventFlags where
  add : Bool := false
  delete : Bool := false
  oneshot : Bool := false
  clear : Bool := false
  receipt : Bool := false
  error : Bool := false
  eof : Bool := false
deriving DecidableEq, Repr

/-- Bitwise union of two flag sets (the `|` operator on `EventFlags`). -/
def EventFlags.union (a b : EventFlags) : EventFlags where
  add := a.add || b.add
  delete := a.delete || b.delete
  oneshot := a.oneshot || b.oneshot
  clear := a.clear || b.clear
  receipt := a.receipt || b.receipt
  error := a.error || b.error
  eof := a.eof || b.eof

instance : Union EventFlags := ⟨EventFlags.union⟩

/-- The empty flag set (`EventFlags::empty()`). -/
def EventFlags.empty : EventFlags := {}

/-- EV_ADD. -/
def EventFlags.ADD : EventFlags := { add := true }

/-- EV_DELETE. -/
def EventFlags.DELETE : EventFlags := { delete := true }

/-- EV_ONESHOT. -/
def EventFlags.ONESHOT : EventFlags := { oneshot := true }

/-- EV_CLEAR. -/
def EventFlags.CLEAR : EventFlags := { clear := true }

/-- EV_RECEIPT. -/
def EventFlags.RECEIPT : EventFlags := { receipt := true }

/-- EV_ERROR. -/
def EventFlags.ERROR : EventFlags := { error := true }

/-- EV_EOF. -/
def EventFlags.EOF : EventFlags := { eof := true }

/-- kqueue event filters (rustix `kqueue::EventFilter`). Payloads that
`src/kqueue.rs` never inspects (vnode/proc/signal/timer/user sub-flags)
are carried as opaque numbers; only the constructor identity and the
file descriptor of `Read`/`Write` matter to the backend. -/
inductive EventFilter where
  | read (fd : Int)
  | write (fd : Int)
  | vnode (ident : Nat) (fflags : Nat)
  | proc (pid : Nat) (fflags : Nat)
  | signal (sig : Nat) (times : Nat)
  | timer (ident : Nat) (timer : Int)
  | user (ident : Nat) (fflags : Nat) (uflags : Nat)
  | unknown (raw : Int)
deriving DecidableEq, Repr

/-- A kernel event record (rustix `kqueue::Event`, i.e. `struct kevent`):
the filter, the flag set, the `data` field (an `isize`; carries the
per-entry status code on a receipt entry) and the `udata` field (a
`usize` bit pattern). -/
structure KEvent where
  filter : EventFilter
  flags : EventFlags
  data : Int
  udata : Nat
deriving DecidableEq, Repr

/-- Constructor `kqueue::Event::new(filter, flags, udata)`: a change-list
entry carries no status, so `data` is zero. -/
def KEvent.new (filter : EventFilter) (flags : EventFlags) (udata : Nat) : KEvent :=
  ⟨filter, flags, 0, udata⟩

/-- Modelled from the spec: the Interest Model event record declared in
the crate root (not under `src/`): an opaque caller-chosen `key`
echoed back on firing, and two independent direction booleans. -/
structure Event where
  key : Nat
  readable : Bool
  writable : Bool
deriving DecidableEq, Repr

/-- Modelled from the spec: `Event::none(key)`, the no-interest event used
by `delete` — both directions disabled. -/
def Event.none (key : Nat) : Event := ⟨key, false, false⟩

/-- Modelled from the spec: `Event::readable(key)`, interest in the read
direction only. -/
def Event.readable' (key : Nat) : Event := ⟨key, true, false⟩

/-- Modelled from the spec: the trigger-mode enumeration `PollMode`
declared in the crate root (not under `src/`). -/
inductive PollMode where
  | oneshot
  | level
  | edge
  | edgeOneshot
deriving DecidableEq, Repr

/-- Modelled from the spec: the reserved notification key `NOTIFY_KEY`
declared in the crate root (not under `src/`) — a key value reserved for
the Self-Notification Channel, never assignable by callers. -/
def NOTIFY_KEY : Nat := 2 ^ 64 - 1

/-- Function `mode_to_flags` of `src/kqueue.rs`. -/
def mode_to_flags : PollMode → EventFlags
  | .oneshot => EventFlags.ONESHOT
  | .level => EventFlags.empty
  | .edge => EventFlags.CLEAR
  | .edgeOneshot => EventFlags.ONESHOT ∪ EventFlags.CLEAR

/-- Errno ENOENT ("not found"), `Errno::NOENT.raw_os_error()`. -/
def ENOENT : Int := 2

/-- Errno EPIPE ("broken pipe"), `Errno::PIPE.raw_os_error()`. -/
def EPIPE : Int := 32

/-- Errno EINTR ("interrupted"). -/
def EINTR : Int := 4

/-- Oracle for the native `kevent(2)` call: maps the submitted change
list to either an errno or the event list the kernel hands back. -/
abbrev KernelCall := List KEvent → Except Int (List KEvent)

/-- Error condition of the receipt-checking loop in
`Poller::submit_changes`: an entry is treated as a fatal error exactly
when its EV_ERROR flag is set and its `data` field is a non-zero code
other than ENOENT and EPIPE. -/
def isFatal (e : KEvent) : Bool :=
  e.flags.error && e.data != 0 && e.data != ENOENT && e.data != EPIPE

/-- Receipt-checking loop of `Poller::submit_changes`: scan the returned
event list in order and fail with the first fatal entry's `data` code
(via `io::Error::from_raw_os_error`); otherwise succeed. -/
def checkReceipts : List KEvent → Except Int Unit
  | [] => .ok ()
  | e :: rest => if isFatal e then .error e.data else checkReceipts rest

/-- Method `Poller::submit_changes`: perform one `kevent` call with the
change list, then run the receipt check over the returned event list. -/
def submit_changes (kernel : KernelCall) (changelist : List KEvent) : Except Int Unit :=
  match kernel changelist with
  | .error e => .error e
  | .ok eventlist => checkReceipts eventlist

/-- Change list built by `Poller::modify`: one read-filter entry and one
write-filter entry, with ADD-plus-mode or DELETE flags chosen per
direction, each carrying EV_RECEIPT and the event's key as `udata`. -/
def modifyChangelist (fd : Int) (ev : Event) (mode : PollMode) : List KEvent :=
  let mode_flags := mode_to_flags mode
  let read_flags :=
    if ev.readable then EventFlags.ADD ∪ mode_flags else EventFlags.DELETE
  let write_flags :=
    if ev.writable then EventFlags.ADD ∪ mode_flags else EventFlags.DELETE
  [ KEvent.new (.read fd) (read_flags ∪ EventFlags.RECEIPT) ev.key,
    KEvent.new (.write fd) (write_flags ∪ EventFlags.RECEIPT) ev.key ]

/-- Method `Poller::modify`: build the two-entry change list and submit
it in one batched `submit_changes` call. -/
def modify (kernel : KernelCall) (fd : Int) (ev : Event) (mode : PollMode) :
    Except Int Unit :=
  submit_changes kernel (modifyChangelist fd ev mode)

/-- Method `Poller::add`: file descriptors need no explicit creation
step, so it just calls `modify`. -/
def add (kernel : KernelCall) (fd : Int) (ev : Event) (mode : PollMode) :
    Except Int Unit :=
  modify kernel fd ev mode

/-- Method `Poller::delete`: delete interest by modifying to the
no-interest event in Oneshot mode. -/
def delete (kernel : KernelCall) (fd : Int) : Except Int Unit :=
  modify kernel fd (Event.none 0) .oneshot

/-- Per-entry translation closure of `Events::iter`: key is the `udata`
value; readable for Read/Vnode/Proc/Signal/Timer filters; writable for
Write filters and for Read filters flagged EV_EOF. -/
def translateEvent (ev : KEvent) : Event where
  key := ev.udata
  readable :=
    match ev.filter with
    | .read _ | .vnode _ _ | .proc _ _ | .signal _ _ | .timer _ _ => true
    | _ => false
  writable :=
    (match ev.filter with | .write _ => true | _ => false)
      || ((match ev.filter with | .read _ => true | _ => false) && ev.flags.eof)

/-- The event buffer `Events`: the raw fired-event records of the last
wait. -/
structure Events where
  list : List KEvent

/-- Method `Events::iter`: lazily translate every raw record. -/
def Events.iter (es : Events) : List Event := es.list.map translateEvent

/-- Observable actions performed by `Poller::wait` and by the pipe
variant of `notify::Notify::reregister`, in program order. -/
inductive Action where
  /-- The native `kevent` retrieval call inside `wait`. -/
  | retrieve
  /-- The drain loop of the pipe-variant `reregister`: read the pipe's
  read end until reading fails. -/
  | drainRead
  /-- One batched `submit_changes` call with the given change list. -/
  | submit (changes : List KEvent)
deriving DecidableEq, Repr

/-- Drain loop of the pipe-variant `reregister`
(`while (&self.read_stream).read(&mut [0; 64]).is_ok() {}`): each
successful read removes up to 64 buffered bytes; the loop stops when
the non-blocking read fails, i.e. when the buffer is empty. -/
def drainLoop (buf : List Nat) : List Nat :=
  if h : buf = [] then []
  else drainLoop (buf.drop 64)
termination_by buf.length
decreasing_by
  have hl : 0 < buf.length := List.length_pos.mpr h
  simp [List.length_drop]
  omega

/-- Pipe variant of `notify::Notify::reregister`: drain the read end,
then re-arm the Oneshot readable registration under the reserved key by
calling `Poller::modify` on the read end's descriptor — a fallible
submission against the kernel. Returns the action trace in program
order, the `io::Result` of the re-arming `modify` call, and the pipe
buffer's final contents. -/
def reregisterPipe (kernel : KernelCall) (readFd : Int) (buf : List Nat) :
    List Action × Except Int Unit × List Nat :=
  ([Action.drainRead,
    Action.submit (modifyChangelist readFd (Event.readable' NOTIFY_KEY) .oneshot)],
   modify kernel readFd (Event.readable' NOTIFY_KEY) .oneshot,
   drainLoop buf)

/-- Outcome of one `Poller::wait` call: the trace of actions it
performed, its `io::Result`, and the notification pipe buffer's final
contents (pipe variant). -/
structure WaitOutcome where
  trace : List Action
  result : Except Int (List KEvent)
  pipeBuf : List Nat
deriving Repr

/-- Method `Poller::wait` (with the pipe-variant notifier): perform
exactly one native `kevent` retrieval and propagate its error with `?`
(there is no retry loop); on success call `notify.reregister`,
propagating its failure with `?` as well, before returning the fired
events. `retrieval` is the oracle result of the one retrieval call;
`kernel` answers the re-arming submission; `readFd` and `buf` are the
notification pipe's read descriptor and buffered bytes. -/
def waitRun (retrieval : Except Int (List KEvent)) (kernel : KernelCall)
    (readFd : Int) (buf : List Nat) : WaitOutcome :=
  match retrieval with
  | .error e => ⟨[Action.retrieve], .error e, buf⟩
  | .ok evs =>
      let r := reregisterPipe kernel readFd buf
      match r.2.1 with
      | .error e => ⟨Action.retrieve :: r.1, .error e, r.2.2⟩
      | .ok () => ⟨Action.retrieve :: r.1, .ok evs, r.2.2⟩

/-- Pipe variant of `notify::Notify::notify`: a non-blocking write of
one wake byte, which may itself fail; `writeResult` is the oracle result
of that write. -/
def notifyPipe (writeResult : Except Int Nat) : Except Int Unit :=
  match writeResult with
  | .error e => .error e
  | .ok _ => .ok ()

/-- EVFILT_USER variant of `notify::Notify::notify`: submit one
user-filter entry with the TRIGGER user-flag, flags ADD plus RECEIPT,
under the reserved key. -/
def notifyUser (kernel : KernelCall) : Except Int Unit :=
  submit_changes kernel
    [KEvent.new (.user 0 1 0)
      (EventFlags.ADD ∪ EventFlags.RECEIPT) NOTIFY_KEY]

/-- Method `Poller::notify`: call the inner notifier, discard its result
with `.ok()`, and return `Ok(())` unconditionally. -/
def pollerNotify (_inner : Except Int Unit) : Except Int Unit := .ok ()

/-- Concrete receipt list in which every entry carries EV_ERROR and a
benign code (zero, ENOENT or EPIPE). -/
def benignReceipts : List KEvent :=
  [⟨.read 3, EventFlags.ERROR, 0, 5⟩,
   ⟨.write 3, EventFlags.ERROR, ENOENT, 5⟩,
   ⟨.read 4, EventFlags.ERROR, EPIPE, 6⟩]

/-- Concrete kernel oracle answering every change list with
`benignReceipts`. -/
def kernelBenign : KernelCall := fun _ => .ok benignReceipts

/-- Concrete receipt list whose second entry carries the fatal code 13
(EACCES). -/
def badReceipts : List KEvent :=
  [⟨.read 3, EventFlags.ERROR, ENOENT, 5⟩,
   ⟨.write 3, EventFlags.ERROR, 13, 5⟩]

/-- Concrete kernel oracle answering every change list with
`badReceipts`. -/
def kernelBad : KernelCall := fun _ => .ok badReceipts

/-- Concrete kernel oracle for a descriptor with no current
registration: both directional delete instructions come back with
ENOENT. -/
def kernelNotFound : KernelCall := fun _ =>
  .ok [⟨.read 3, EventFlags.ERROR, ENOENT, 0⟩,
       ⟨.write 3, EventFlags.ERROR, ENOENT, 0⟩]

end Polling

namespace Iocp

/-- Type `NTSTATUS = i32` of `src/iocp/bindings.rs`. All values used fit
in 32 bits, so plain `Int` embeds it faithfully. -/
abbrev NTSTATUS := Int

/-- Constant STATUS_SUCCESS of `src/iocp/bindings.rs`. -/
def STATUS_SUCCESS : NTSTATUS := 0

/-- Constant STATUS_PENDING of `src/iocp/bindings.rs`. -/
def STATUS_PENDING : NTSTATUS := 259

/-- Constant STATUS_NOT_FOUND of `src/iocp/bindings.rs`. -/
def STATUS_NOT_FOUND : NTSTATUS := -1073741275

/-- Constant STATUS_CANCELLED of `src/iocp/bindings.rs`. -/
def STATUS_CANCELLED : NTSTATUS := -1073741536

/-- Type `WIN32_ERROR = u32` and constant ERROR_IO_PENDING of
`src/iocp/bindings.rs`. -/
def ERROR_IO_PENDING : Nat := 997

/-- Record OVERLAPPED_ENTRY of `src/iocp/bindings.rs`: exactly four
fields — the completion key (`usize`), the pointer to the completed
OVERLAPPED control block (modelled as its address), the raw status
(`Internal : usize`), and the transferred-byte count (`u32`). -/
structure OVERLAPPED_ENTRY where
  lpCompletionKey : Nat
  lpOverlapped : Nat
  Internal : Nat
  dwNumberOfBytesTransferred : Nat
deriving DecidableEq, Repr

end Iocp

namespace Polling

/-- Helper: the drain loop always empties the pipe buffer. -/
theorem drainLoop_eq_nil (buf : List Nat) : drainLoop buf = [] := by
  have H : ∀ (n : Nat) (l : List Nat), l.length ≤ n → drainLoop l = [] := by
    intro n
    induction n with
    | zero =>
      intro l hl
      have : l = [] := List.eq_nil_of_length_eq_zero (Nat.le_zero.mp hl)
      subst this
      rw [drainLoop.eq_def]
      simp
    | succ n ih =>
      intro l hl
      rw [drainLoop.eq_def]
      split
      · rfl
      · rename_i hne
        apply ih
        have : 0 < l.length := List.length_pos.mpr hne
        simp [List.length_drop]
        omega
  exact H buf.length buf le_rfl

/-- Helper: `isFatal` characterised as a proposition. -/
theorem isFatal_true_iff (e : KEvent) :
    isFatal e = true ↔
      e.flags.error = true ∧ e.data ≠ 0 ∧ e.data ≠ ENOENT ∧ e.data ≠ EPIPE := by
  simp [isFatal, and_assoc]

/-- Helper: on an entry carrying EV_ERROR, being non-fatal means the
code is one of the three benign values. -/
theorem isFatal_false_of_error (e : KEvent) (he : e.flags.error = true) :
    isFatal e = false ↔ e.data = 0 ∨ e.data = ENOENT ∨ e.data = EPIPE := by
  constructor
  · intro h
    by_contra hc
    push_neg at hc
    obtain ⟨h0, h1, h2⟩ := hc
    simp [isFatal, he, h0, h1, h2] at h
  · intro h
    rcases h with h | h | h <;> simp [isFatal, h]

/-- Helper: the receipt check succeeds exactly when no entry is fatal. -/
theorem checkReceipts_ok_iff (l : List KEvent) :
    checkReceipts l = .ok () ↔ ∀ e ∈ l, isFatal e = false := by
  induction l with
  | nil => simp [checkReceipts]
  | cons e rest ih =>
    cases hf : isFatal e with
    | true => simp [checkReceipts, hf]
    | false => simp [checkReceipts, hf, ih]

/-- Helper: a failing receipt check reports the data code of some fatal
entry of the list. -/
theorem checkReceipts_error_mem (l : List KEvent) (c : Int)
    (h : checkReceipts l = .error c) :
    ∃ e ∈ l, isFatal e = true ∧ e.data = c := by
  induction l with
  | nil => simp [checkReceipts] at h
  | cons e rest ih =>
    cases hf : isFatal e with
    | true =>
      refine ⟨e, by simp, hf, ?_⟩
      simpa [checkReceipts, hf] using h
    | false =>
      simp only [checkReceipts, hf] at h
      simp at h
      obtain ⟨f, hf', hfa, hd⟩ := ih h
      exact ⟨f, by simp [hf'], hfa, hd⟩

/-- Claim C1: for every event and mode, `Poller::modify` computes the two
directional instructions independently — a read-filter entry with flags
ADD plus the mode's flags when `ev.readable`, else DELETE, and likewise
a write-filter entry from `ev.writable` — and submits exactly these two
entries, each carrying the event's key as udata and the RECEIPT flag,
in one batched `submit_changes` call. -/
theorem modify_two_receipt_entries (kernel : KernelCall) (fd : Int)
    (ev : Event) (mode : PollMode) :
    modify kernel fd ev mode = submit_changes kernel (modifyChangelist fd ev mode)
    ∧ modifyChangelist fd ev mode =
        [KEvent.new (.read fd)
          ((if ev.readable then EventFlags.ADD ∪ mode_to_flags mode
            else EventFlags.DELETE) ∪ EventFlags.RECEIPT) ev.key,
         KEvent.new (.write fd)
          ((if ev.writable then EventFlags.ADD ∪ mode_to_flags mode
            else EventFlags.DELETE) ∪ EventFlags.RECEIPT) ev.key]
    ∧ (∀ e ∈ modifyChangelist fd ev mode,
        e.flags.receipt = true ∧ e.udata = ev.key) := by
  refine ⟨rfl, rfl, ?_⟩
  intro e he
  simp only [modifyChangelist, KEvent.new, List.mem_cons, List.mem_singleton,
    List.not_mem_nil, or_false] at he
  rcases he with h | h <;> subst h <;>
    cases hr : ev.readable <;> cases hw : ev.writable <;>
      simp [hr, hw, Union.union, EventFlags.union, EventFlags.RECEIPT]

/-- Witness for C1 at a concrete input: the read entry of
`modifyChangelist 3 (readable, key 9) Level` carries the RECEIPT flag
and udata 9. -/
theorem modify_two_receipt_entries_witness :
    (KEvent.new (.read 3)
        ((EventFlags.ADD ∪ mode_to_flags .level) ∪ EventFlags.RECEIPT)
        9).flags.receipt = true
    ∧ (KEvent.new (.read 3)
        ((EventFlags.ADD ∪ mode_to_flags .level) ∪ EventFlags.RECEIPT)
        9).udata = 9 := by
  have h := (modify_two_receipt_entries kernelBenign 3 ⟨9, true, false⟩ .level).2.2
  exact h _ (by decide)

/-- Claim C2: `submit_changes` succeeds when every receipt entry's code
is zero, ENOENT ("not found") or EPIPE ("broken pipe"), and fails with
the offending entry's native code when some receipt entry reports any
other non-zero code. Receipt entries always carry EV_ERROR, captured by
the hypothesis. -/
theorem submit_changes_receipt_filtering (kernel : KernelCall)
    (cl evl : List KEvent)
    (hk : kernel cl = .ok evl)
    (hrec : ∀ e ∈ evl, e.flags.error = true) :
    (submit_changes kernel cl = .ok () ↔
      ∀ e ∈ evl, e.data = 0 ∨ e.data = ENOENT ∨ e.data = EPIPE)
    ∧ (∀ c : Int, submit_changes kernel cl = .error c →
        c ≠ 0 ∧ c ≠ ENOENT ∧ c ≠ EPIPE ∧ ∃ e ∈ evl, e.data = c) := by
  have hs : submit_changes kernel cl = checkReceipts evl := by
    simp [submit_changes, hk]
  constructor
  · rw [hs, checkReceipts_ok_iff]
    constructor
    · intro h e he
      exact (isFatal_false_of_error e (hrec e he)).mp (h e he)
    · intro h e he
      exact (isFatal_false_of_error e (hrec e he)).mpr (h e he)
  · intro c hc
    rw [hs] at hc
    obtain ⟨e, he, hfa, hd⟩ := checkReceipts_error_mem evl c hc
    obtain ⟨_, h0, h1, h2⟩ := (isFatal_true_iff e).mp hfa
    subst hd
    exact ⟨h0, h1, h2, e, he, rfl⟩

/-- Witness for C2 at concrete inputs: a receipt list of codes 0, ENOENT
and EPIPE is accepted (in particular the delete of an
already-dropped registration, reported ENOENT, succeeds), while a
receipt list containing the code 13 makes the call fail with an error
that is none of the benign codes and is the data of some entry. -/
theorem submit_changes_receipt_filtering_witness :
    submit_changes kernelBenign [] = .ok ()
    ∧ submit_changes kernelNotFound [] = .ok ()
    ∧ ((13 : Int) ≠ 0 ∧ (13 : Int) ≠ ENOENT ∧ (13 : Int) ≠ EPIPE
        ∧ ∃ e ∈ badReceipts, e.data = 13) := by
  refine ⟨?_, ?_, ?_⟩
  · exact (submit_changes_receipt_filtering kernelBenign [] benignReceipts rfl
      (by decide)).1.mpr (by decide)
  · exact (submit_changes_receipt_filtering kernelNotFound []
      [⟨.read 3, EventFlags.ERROR, ENOENT, 0⟩,
       ⟨.write 3, EventFlags.ERROR, ENOENT, 0⟩] rfl
      (by decide)).1.mpr (by decide)
  · exact (submit_changes_receipt_filtering kernelBad [] badReceipts rfl
      (by decide)).2 13 rfl

/-- Claim C3: the translation produced by `Events::iter` reports
readable exactly for the Read, Vnode, Proc, Signal and Timer filters,
reports writable exactly for the Write filter or a Read filter with the
EV_EOF flag set, and echoes the entry's udata verbatim as the key. -/
theorem iter_reports_directions (es : Events) (kev : KEvent) :
    Events.iter es = es.list.map translateEvent
    ∧ (translateEvent kev).key = kev.udata
    ∧ ((translateEvent kev).readable = true ↔
        (∃ fd, kev.filter = .read fd) ∨ (∃ i f, kev.filter = .vnode i f)
        ∨ (∃ p f, kev.filter = .proc p f) ∨ (∃ s t, kev.filter = .signal s t)
        ∨ (∃ i t, kev.filter = .timer i t))
    ∧ ((translateEvent kev).writable = true ↔
        (∃ fd, kev.filter = .write fd)
        ∨ ((∃ fd, kev.filter = .read fd) ∧ kev.flags.eof = true)) := by
  refine ⟨rfl, rfl, ?_, ?_⟩
  · rcases kev with ⟨f, fl, d, u⟩
    cases f <;> simp [translateEvent]
  · rcases kev with ⟨f, fl, d, u⟩
    cases f <;> simp [translateEvent]

/-- Witness for C3 at a concrete input: a Read-filter entry flagged
EV_EOF with udata 42 translates to a readable and writable event with
key 42. -/
theorem iter_reports_directions_witness :
    (translateEvent ⟨.read 5, EventFlags.EOF, 0, 42⟩).key = 42
    ∧ (translateEvent ⟨.read 5, EventFlags.EOF, 0, 42⟩).readable = true
    ∧ (translateEvent ⟨.read 5, EventFlags.EOF, 0, 42⟩).writable = true := by
  have h := iter_reports_directions ⟨[]⟩ ⟨.read 5, EventFlags.EOF, 0, 42⟩
  exact ⟨h.2.1, h.2.2.1.mpr (Or.inl ⟨5, rfl⟩),
    h.2.2.2.mpr (Or.inr ⟨⟨5, rfl⟩, rfl⟩)⟩

/-- Claim C4, counterexample: when the single native retrieval call
inside `Poller::wait` fails with EINTR ("interrupted"), `wait` returns
that very error to the caller — the trace shows exactly one retrieval
attempt and no retry — refuting the claim that the error is retried
internally and not surfaced. -/
theorem wait_surfaces_eintr :
    (waitRun (.error EINTR) kernelBenign 0 []).result = .error EINTR
    ∧ (waitRun (.error EINTR) kernelBenign 0 []).trace = [Action.retrieve] :=
  ⟨rfl, rfl⟩

/-- Claim C4 as amended: `Poller::wait` performs the native retrieval
exactly once and surfaces every native error — the interrupted error
included — unchanged as its own failure. -/
theorem wait_surfaces_all_errors (e : Int) (kernel : KernelCall)
    (readFd : Int) (buf : List Nat) :
    (waitRun (.error e) kernel readFd buf).result = .error e
    ∧ (waitRun (.error e) kernel readFd buf).trace = [Action.retrieve] :=
  ⟨rfl, rfl⟩

/-- Claim C5: `Poller::add` is implemented identically to
`Poller::modify` — same result, and the same submitted change list. -/
theorem add_eq_modify (kernel : KernelCall) (fd : Int) (ev : Event)
    (mode : PollMode) :
    add kernel fd ev mode = modify kernel fd ev mode
    ∧ add kernel fd ev mode =
        submit_changes kernel (modifyChangelist fd ev mode) :=
  ⟨rfl, rfl⟩

/-- Claim C6: `Poller::delete` is exactly `modify(fd, no-interest,
Oneshot)`, disarming both directions; and on a descriptor with no
current registration — whatever the prior registration's mode, the
kernel answers both delete instructions with ENOENT (or zero) — delete
succeeds with no error. -/
theorem delete_is_modify_none_oneshot (kernel : KernelCall) (fd : Int)
    (resp : List KEvent)
    (hk : kernel (modifyChangelist fd (Event.none 0) .oneshot) = .ok resp)
    (hnf : ∀ e ∈ resp, e.data = 0 ∨ e.data = ENOENT) :
    delete kernel fd = modify kernel fd (Event.none 0) .oneshot
    ∧ delete kernel fd = .ok () := by
  refine ⟨rfl, ?_⟩
  show submit_changes kernel (modifyChangelist fd (Event.none 0) .oneshot) = .ok ()
  have hs : submit_changes kernel (modifyChangelist fd (Event.none 0) .oneshot)
      = checkReceipts resp := by
    simp [submit_changes, hk]
  rw [hs, checkReceipts_ok_iff]
  intro e he
  rcases hnf e he with h | h <;> simp [isFatal, h]

/-- Witness for C6 at a concrete input: deleting descriptor 3 against a
kernel that reports ENOENT for both directions succeeds. -/
theorem delete_is_modify_none_oneshot_witness :
    delete kernelNotFound 3 = .ok () :=
  (delete_is_modify_none_oneshot kernelNotFound 3
    [⟨.read 3, EventFlags.ERROR, ENOENT, 0⟩,
     ⟨.write 3, EventFlags.ERROR, ENOENT, 0⟩] rfl (by decide)).2

/-- Claim C7: `Poller::notify` never fails outwardly: whatever the inner
notifier returns — the EVFILT_USER trigger submission against any
kernel, or the non-blocking wake-byte write with any outcome — the
result is discarded with `.ok()` and success is returned. -/
theorem notify_never_fails (inner : Except Int Unit) (e : Int)
    (writeResult : Except Int Nat) (kernel : KernelCall) :
    pollerNotify inner = .ok ()
    ∧ pollerNotify (.error e) = .ok ()
    ∧ pollerNotify (notifyPipe writeResult) = .ok ()
    ∧ pollerNotify (notifyUser kernel) = .ok () :=
  ⟨rfl, rfl, rfl, rfl⟩

/-- Claim C8: every successful `Poller::wait` call, after the native
retrieval completes, invokes the notifier's reregister, which in the
pipe variant first drains all bytes buffered on the read endpoint
(final buffer empty) and only then submits the re-arm of the Oneshot
readable registration under the reserved key — in that order, as the
trace shows; wait's result is the fired events on a successful re-arm
and the re-arming modify call's error otherwise, propagated by `?`. -/
theorem wait_rearms_notifier (retrieval : Except Int (List KEvent))
    (evs : List KEvent) (kernel : KernelCall) (readFd : Int)
    (buf : List Nat) (h : retrieval = .ok evs) :
    (waitRun retrieval kernel readFd buf).trace =
      [Action.retrieve, Action.drainRead,
       Action.submit (modifyChangelist readFd (Event.readable' NOTIFY_KEY)
         .oneshot)]
    ∧ (waitRun retrieval kernel readFd buf).pipeBuf = []
    ∧ (waitRun retrieval kernel readFd buf).result =
        (match modify kernel readFd (Event.readable' NOTIFY_KEY) .oneshot with
         | .error e => .error e
         | .ok _ => .ok evs) := by
  subst h
  have hb : drainLoop buf = [] := drainLoop_eq_nil buf
  cases hm : modify kernel readFd (Event.readable' NOTIFY_KEY) .oneshot with
  | error e => simp [waitRun, reregisterPipe, hm, hb]
  | ok u =>
    cases u
    simp [waitRun, reregisterPipe, hm, hb]

/-- Witness for C8 at a concrete input: a successful empty retrieval,
against a kernel whose receipts are benign, with three bytes buffered
on the pipe, yields the retrieve-drain-then-rearm trace, an emptied
buffer, and the result of the re-arming modify call threaded through. -/
theorem wait_rearms_notifier_witness :
    (waitRun (.ok []) kernelBenign 7 [1, 2, 3]).trace =
      [Action.retrieve, Action.drainRead,
       Action.submit (modifyChangelist 7 (Event.readable' NOTIFY_KEY)
         .oneshot)]
    ∧ (waitRun (.ok []) kernelBenign 7 [1, 2, 3]).pipeBuf = []
    ∧ (waitRun (.ok []) kernelBenign 7 [1, 2, 3]).result =
        (match modify kernelBenign 7 (Event.readable' NOTIFY_KEY) .oneshot with
         | .error e => .error e
         | .ok _ => .ok []) :=
  wait_rearms_notifier (.ok []) [] kernelBenign 7 [1, 2, 3] rfl

/-- Claim C10: the receipt check of `submit_changes` treats an entry as
erroneous only when its EV_ERROR flag is set and its data is non-zero —
an entry with non-zero data but no EV_ERROR, or with EV_ERROR but zero
data, is accepted — and the overall result is determined by the first
fatal entry in event-list order. -/
theorem checkReceipts_first_fatal (evs : List KEvent) (e : KEvent) :
    (isFatal e = true → e.flags.error = true ∧ e.data ≠ 0)
    ∧ (e.flags.error = false ∨ e.data = 0 → isFatal e = false)
    ∧ checkReceipts evs =
        (match evs.find? isFatal with
         | some f => .error f.data
         | none => .ok ()) := by
  refine ⟨?_, ?_, ?_⟩
  · intro h
    obtain ⟨h1, h2, _, _⟩ := (isFatal_true_iff e).mp h
    exact ⟨h1, h2⟩
  · intro h
    rcases h with h | h <;> simp [isFatal, h]
  · induction evs with
    | nil => rfl
    | cons f rest ih =>
      cases hf : isFatal f with
      | true => simp [checkReceipts, hf, List.find?_cons_of_pos _ hf]
      | false => simp [checkReceipts, hf, List.find?_cons_of_neg, ih]

/-- Witness for C10 at concrete inputs: an EV_ERROR entry with fatal
code 13 satisfies the necessary condition; an entry with non-zero data
but no EV_ERROR flag is accepted; and on a list whose first fatal entry
carries 13, the check fails with 13. -/
theorem checkReceipts_first_fatal_witness :
    ((⟨.write 3, EventFlags.ERROR, 13, 5⟩ : KEvent).flags.error = true
      ∧ (13 : Int) ≠ 0)
    ∧ isFatal ⟨.read 3, EventFlags.empty, 13, 5⟩ = false
    ∧ checkReceipts badReceipts = .error 13 := by
  refine ⟨?_, ?_, ?_⟩
  · exact (checkReceipts_first_fatal [] ⟨.write 3, EventFlags.ERROR, 13, 5⟩).1
      (by decide)
  · exact (checkReceipts_first_fatal [] ⟨.read 3, EventFlags.empty, 13, 5⟩).2.1
      (Or.inl (by decide))
  · have h := (checkReceipts_first_fatal badReceipts
      ⟨.write 3, EventFlags.ERROR, 13, 5⟩).2.2
    rw [h]
    rfl

end Polling

namespace Iocp

/-- Claim C9: the completion-port binding layer defines the
distinguished status values with the exact Windows numeric values —
STATUS_PENDING 259, ERROR_IO_PENDING 997, STATUS_CANCELLED
-1073741536, STATUS_NOT_FOUND -1073741275, all distinct from
STATUS_SUCCESS 0 and from each other — and its OVERLAPPED_ENTRY record
consists of exactly the four fields completion key, overlapped pointer,
raw status and transferred-byte count. -/
theorem iocp_status_constants :
    STATUS_PENDING = 259 ∧ ERROR_IO_PENDING = 997
    ∧ STATUS_CANCELLED = -1073741536 ∧ STATUS_NOT_FOUND = -1073741275
    ∧ STATUS_SUCCESS = 0
    ∧ STATUS_PENDING ≠ STATUS_SUCCESS ∧ STATUS_CANCELLED ≠ STATUS_SUCCESS
    ∧ STATUS_NOT_FOUND ≠ STATUS_SUCCESS
    ∧ STATUS_PENDING ≠ STATUS_CANCELLED ∧ STATUS_PENDING ≠ STATUS_NOT_FOUND
    ∧ STATUS_CANCELLED ≠ STATUS_NOT_FOUND
    ∧ (∀ e : OVERLAPPED_ENTRY,
        e = ⟨e.lpCompletionKey, e.lpOverlapped, e.Internal,
          e.dwNumberOfBytesTransferred⟩)
    ∧ (∀ a b : OVERLAPPED_ENTRY,
        a = b ↔ a.lpCompletionKey = b.lpCompletionKey
          ∧ a.lpOverlapped = b.lpOverlapped ∧ a.Internal = b.Internal
          ∧ a.dwNumberOfBytesTransferred = b.dwNumberOfBytesTransferred) := by
  refine ⟨rfl, rfl, rfl, rfl, rfl, by decide, by decide, by decide, by decide,
    by decide, by decide, ?_, ?_⟩
  · intro e
    cases e
    rfl
  · intro a b
    cases a
    cases b
    simp

end Iocp

